import Mathlib

/-!
# Verification of `jaeger_client/span.py` (jaeger-client-python)

A shallow embedding of the span core: the `Span` mutable record, its
`SpanContext`, the tag/log append paths, the sampling-priority elevation
algorithm, the finish/report handoff, and baggage updates.

Python specifics modelled explicitly:
* `int(value)` raises `ValueError` on a malformed string but `TypeError`
  on `None` / lists; the source catches only `ValueError`.
* Python truthiness (`if self.is_debug() and value:`, `if prev_value:`,
  `timestamp if timestamp else time.time()`) is modelled by `pyTruthy`.
* The source mutates `self.context.flags` in place in
  `_set_sampling_priority`, but installs a freshly constructed context in
  `set_baggage_item`.  Object identity of the installed context is modelled
  by a `contextGen` counter: it increments exactly where the source binds a
  new `SpanContext` object to `self._context` (i.e. in `set_baggage_item`),
  and stays fixed where the source writes through the existing object.
* Wall-clock reads (`time.time()`) are passed in as an explicit `now`
  argument.
-/

namespace JaegerSpan

/-- `constants.SAMPLED_FLAG` (module `jaeger_client.constants`, imported by
`span.py`; value `0x01` per the spec's "bitmask with at least SAMPLED and
DEBUG bits" and the upstream constants). -/
def SAMPLED_FLAG : Nat := 1

/-- `constants.DEBUG_FLAG` (value `0x02`). -/
def DEBUG_FLAG : Nat := 2

/-- `opentracing.ext.tags.SAMPLING_PRIORITY`, the reserved tag key. -/
def SAMPLING_PRIORITY : String := "sampling.priority"

/-- A Python value as supplied to `set_tag` / `int(...)`: the cases the
claims range over (integers, booleans, strings, `None`, lists). -/
inductive Value where
  | int (n : Int)
  | bool (b : Bool)
  | str (s : String)
  | none
  | list (len : Nat)
deriving DecidableEq, Repr

/-- Python truthiness of a `Value` (`bool(value)`). -/
def pyTruthy : Value → Bool
  | .int n => n ≠ 0
  | .bool b => b
  | .str s => s ≠ ""
  | .none => false
  | .list len => len ≠ 0

/-- The two Python exception classes relevant to `int(value)`:
`int` raises `ValueError` for a malformed string and `TypeError` for an
argument of an unsupported type (`None`, `list`, ...). -/
inductive PyErr where
  | valueError
  | typeError
deriving DecidableEq, Repr

/-- Python `str.strip()` whitespace (the characters relevant here). -/
def pyWhitespace (c : Char) : Bool :=
  c = ' ' || c = '\t' || c = '\n' || c = '\r'

/-- Strip leading and trailing whitespace from a character list. -/
def trimChars (l : List Char) : List Char :=
  ((l.dropWhile pyWhitespace).reverse.dropWhile pyWhitespace).reverse

/-- The value of a decimal digit character, if it is one. -/
def digitVal (c : Char) : Option Nat :=
  if 48 ≤ c.toNat ∧ c.toNat ≤ 57 then some (c.toNat - 48) else Option.none

/-- Accumulate a decimal digit string left to right. -/
def parseDigitsAux : List Char → Nat → Option Nat
  | [], acc => some acc
  | c :: rest, acc =>
    match digitVal c with
    | some d => parseDigitsAux rest (10 * acc + d)
    | Option.none => Option.none

/-- Parse a nonempty all-digit character list. -/
def parseDigits : List Char → Option Nat
  | [] => Option.none
  | cs => parseDigitsAux cs 0

/-- Integer parse of a string as CPython's `int(str)` does for the simple
forms exercised here: optional surrounding whitespace, optional sign, a
nonempty digit string; anything else raises `ValueError`. -/
def pyIntOfString (s : String) : Except PyErr Int :=
  match trimChars s.toList with
  | '-' :: rest =>
    match parseDigits rest with
    | some n => .ok (-(n : Int))
    | Option.none => .error .valueError
  | '+' :: rest =>
    match parseDigits rest with
    | some n => .ok (n : Int)
    | Option.none => .error .valueError
  | cs =>
    match parseDigits cs with
    | some n => .ok (n : Int)
    | Option.none => .error .valueError

/-- CPython `int(value)`: identity on ints, `0/1` on bools, string parse on
strings (`ValueError` on failure), `TypeError` on `None` and lists. -/
def pyInt : Value → Except PyErr Int
  | .int n => .ok n
  | .bool b => .ok (if b then 1 else 0)
  | .str s => pyIntOfString s
  | .none => .error .typeError
  | .list _ => .error .typeError

/-- The typed union stored in a Thrift `Tag` / `Log` field (spec §3: string,
boolean, 64-bit integer, ... plus a diagnostic fallback for unsupported
types). -/
inductive TagValue where
  | vStr (s : String)
  | vLong (n : Int)
  | vBool (b : Bool)
deriving DecidableEq, Repr

/-- Modelled from the spec: the Encoder collaborator's value conversion
(`thrift.py` is outside this core).  Known kinds map to their typed variant;
unsupported types (`None`, lists) degrade to a textual diagnostic fallback,
never an error (spec §6: "must never raise for unsupported value types"). -/
def encodeValue : Value → TagValue
  | .int n => .vLong n
  | .bool b => .vBool b
  | .str s => .vStr s
  | .none => .vStr "None"
  | .list _ => .vStr "<unsupported>"

/-- A Thrift `ttypes.Tag` record: key plus typed value. -/
structure Tag where
  key : String
  value : TagValue
deriving DecidableEq, Repr

/-- Modelled from the spec: `thrift.make_tag(key, value, max_length,
max_traceback_length)` — builds one `Tag`; length caps are enforced inside
the encoder and play no role in the properties here, so they are carried but
unused. -/
def make_tag (key : String) (value : Value) (_max_length _max_traceback_length : Nat) : Tag :=
  { key := key, value := encodeValue value }

/-- A Thrift `ttypes.Log` record: timestamp plus an ordered field list. -/
structure Log where
  timestamp : Nat
  fields : List (String × TagValue)
deriving DecidableEq, Repr

/-- Modelled from the spec: `thrift.make_log(timestamp, fields, ...)` —
one `Log` per call, fields kept in insertion order, each value encoded as a
tag value, never raising. -/
def make_log (timestamp : Nat) (fields : List (String × Value))
    (_max_length _max_traceback_length : Nat) : Log :=
  { timestamp := timestamp, fields := fields.map fun kv => (kv.1, encodeValue kv.2) }

/-- Python-dict lookup `baggage.get(key)` on an insertion-ordered
association list. -/
def bagGet : List (String × String) → String → Option String
  | [], _ => Option.none
  | (k', v') :: rest, k => if k' = k then some v' else bagGet rest k

/-- Python-dict assignment `baggage[key] = value` (existing binding updated
in place, new binding appended). -/
def bagSet : List (String × String) → String → String → List (String × String)
  | [], k, v => [(k, v)]
  | (k', v') :: rest, k, v =>
      if k' = k then (k, v) :: rest else (k', v') :: bagSet rest k v

/-- Python-dict removal `baggage.pop(key, None)`. -/
def bagRemove : List (String × String) → String → List (String × String)
  | [], _ => []
  | (k', v') :: rest, k => if k' = k then rest else (k', v') :: bagRemove rest k

/-- `SpanContext` (module `jaeger_client.span_context`): identity record with
trace/span/parent ids, a flags bitmask and a baggage mapping. -/
structure SpanContext where
  trace_id : Nat
  span_id : Nat
  parent_id : Nat
  flags : Nat
  baggage : List (String × String)
deriving DecidableEq, Repr

/-- Modelled from the spec: `SpanContext.with_baggage_item(key, value)`
(`span_context.py` is outside this core) — "returns a new context equal to
the receiver except the baggage mapping has `key` set to `value` (or removed
if value is empty/absent, implementer's choice)"; we take the absent case
(`None`) to remove the key. -/
def with_baggage_item (c : SpanContext) (key : String) (value : Option String) : SpanContext :=
  match value with
  | some v => { c with baggage := bagSet c.baggage key v }
  | Option.none => { c with baggage := bagRemove c.baggage key }

/-- The mutable `Span` state: the fields of `Span.__slots__` that the claims
touch, plus observation counters for the external effects (`reports` counts
`tracer.report_span` invocations, `warnings` counts warning-level log
emissions) and `contextGen`, the identity of the installed context object
(see the module comment).  `debugAllowed` embeds the injected
`tracer.is_debug_allowed` policy; `maxTagValueLength` /
`maxTracebackLength` embed the tracer's encoder caps. -/
structure SpanState where
  context : SpanContext
  contextGen : Nat
  operation_name : String
  start_time : Nat
  end_time : Option Nat
  finished : Bool
  tags : List Tag
  logs : List Log
  debugAllowed : String → Bool
  maxTagValueLength : Nat
  maxTracebackLength : Nat
  reports : Nat
  warnings : Nat

/-- `Span.is_sampled`: `self.context.flags & SAMPLED_FLAG == SAMPLED_FLAG`. -/
def is_sampled (s : SpanState) : Bool :=
  s.context.flags &&& SAMPLED_FLAG = SAMPLED_FLAG

/-- `Span.is_debug`: `self.context.flags & DEBUG_FLAG == DEBUG_FLAG`. -/
def is_debug (s : SpanState) : Bool :=
  s.context.flags &&& DEBUG_FLAG = DEBUG_FLAG

/-- `flags &= ~(SAMPLED_FLAG | DEBUG_FLAG)`: since `SAMPLED_FLAG |
DEBUG_FLAG = 3` occupies the two low bits, masking them off subtracts
exactly their contribution `flags &&& 3`. -/
def clearSampledDebug (f : Nat) : Nat :=
  f - (f &&& (SAMPLED_FLAG ||| DEBUG_FLAG))

/-- `flags |= SAMPLED_FLAG | DEBUG_FLAG`. -/
def setSampledDebug (f : Nat) : Nat :=
  f ||| (SAMPLED_FLAG ||| DEBUG_FLAG)

/-- `Span._set_sampling_priority(value)` (lock held by the caller).  Returns
the post state and the elevation verdict; an uncaught `TypeError` from
`int(value)` propagates.  The flag writes go through the *installed* context
object (`self.context.flags &= ...` / `|= ...`), so `contextGen` is
unchanged. -/
def _set_sampling_priority (s : SpanState) (value : Value) :
    Except PyErr (SpanState × Bool) :=
  if is_debug s && pyTruthy value then
    .ok (s, false)
  else
    match pyInt value with
    | .error .valueError => .ok (s, false)
    | .error .typeError => .error .typeError
    | .ok n =>
      if n = 0 then
        .ok ({ s with context := { s.context with flags := clearSampledDebug s.context.flags } },
             false)
      else if s.debugAllowed s.operation_name then
        .ok ({ s with context := { s.context with flags := setSampledDebug s.context.flags } },
             true)
      else
        .ok (s, false)

/-- `Span.set_tag(key, value)`: the reserved sampling-priority key runs the
elevation algorithm and short-circuits (`return self`) when not elevated;
otherwise a sampled span appends an encoded tag and an unsampled span drops
it. -/
def set_tag (s : SpanState) (key : String) (value : Value) : Except PyErr SpanState :=
  if key = SAMPLING_PRIORITY then
    match _set_sampling_priority s value with
    | .error e => .error e
    | .ok (s', elevated) =>
      if elevated then
        .ok (if is_sampled s' then
               { s' with tags := s'.tags ++
                   [make_tag key value s'.maxTagValueLength s'.maxTracebackLength] }
             else s')
      else
        .ok s'
  else
    .ok (if is_sampled s then
           { s with tags := s.tags ++
               [make_tag key value s.maxTagValueLength s.maxTracebackLength] }
         else s)

/-- `Span.finish(finish_time)`: unsampled fast path; then, under the lock,
a second finish only warns; otherwise flip `finished`, record the end time
(`finish_time or time.time()` — Python `or`, so a zero timestamp falls back
to `now`), and report exactly once outside the lock. -/
def finish (s : SpanState) (finish_time : Option Nat) (now : Nat) : SpanState :=
  if !is_sampled s then s
  else if s.finished then
    { s with warnings := s.warnings + 1 }
  else
    { s with finished := true
           , end_time := some (match finish_time with
               | some t => if t = 0 then now else t
               | Option.none => now)
           , reports := s.reports + 1 }

/-- `Span.log_kv(key_values, timestamp)`: when sampled, append one encoded
log record (`timestamp if timestamp else time.time()` — truthiness again);
otherwise a no-op. -/
def log_kv (s : SpanState) (key_values : List (String × Value))
    (timestamp : Option Nat) (now : Nat) : SpanState :=
  if is_sampled s then
    let ts := match timestamp with
      | some t => if t = 0 then now else t
      | Option.none => now
    { s with logs := s.logs ++
        [make_log ts key_values s.maxTagValueLength s.maxTracebackLength] }
  else s

/-- `Span.get_baggage_item(key)`: `self.context.baggage.get(key)`. -/
def get_baggage_item (s : SpanState) (key : String) : Option String :=
  bagGet s.context.baggage key

/-- Truthiness of `prev_value` (an `Optional[str]`): `None` and `""` are
falsy. -/
def pyTruthyOptStr : Option String → Bool
  | Option.none => false
  | some v => v ≠ ""

/-- `Span.set_baggage_item(key, value)`: read the previous value, build a
fresh context via `with_baggage_item`, swap it in (a *new* object:
`contextGen` increments), and when sampled append a baggage-audit log via
`log_kv`, with an `override` field when the previous value was truthy. -/
def set_baggage_item (s : SpanState) (key : String) (value : Option String)
    (now : Nat) : SpanState :=
  let prev_value := get_baggage_item s key
  let new_context := with_baggage_item s.context key value
  let s1 := { s with context := new_context, contextGen := s.contextGen + 1 }
  if is_sampled s1 then
    let fields := [("event", Value.str "baggage"),
                   ("key", Value.str key),
                   ("value", match value with
                     | some v => Value.str v
                     | Option.none => Value.none)] ++
                  (if pyTruthyOptStr prev_value then [("override", Value.str "true")] else [])
    log_kv s1 fields Option.none now
  else s1

/-- `Span.set_operation_name(operation_name)`. -/
def set_operation_name (s : SpanState) (operation_name : String) : SpanState :=
  { s with operation_name := operation_name }

/-- `Span.__init__`: fresh state (no tags/logs, not finished, `start_time or
time.time()`), then the seed tags are installed through `set_tag` in
insertion order — so a seed tag may raise exactly as `set_tag` may. -/
def span_init (context : SpanContext) (operation_name : String)
    (tags : List (String × Value)) (start_time : Option Nat) (now : Nat)
    (debugAllowed : String → Bool) (maxTagValueLength maxTracebackLength : Nat) :
    Except PyErr SpanState :=
  let s0 : SpanState :=
    { context := context
    , contextGen := 0
    , operation_name := operation_name
    , start_time := match start_time with
        | some t => if t = 0 then now else t
        | Option.none => now
    , end_time := Option.none
    , finished := false
    , tags := []
    , logs := []
    , debugAllowed := debugAllowed
    , maxTagValueLength := maxTagValueLength
    , maxTracebackLength := maxTracebackLength
    , reports := 0
    , warnings := 0 }
  tags.foldlM (fun s kv => set_tag s kv.1 kv.2) s0

/-- One externally invokable operation on a span (the mutators the claims
quantify over). -/
inductive Op where
  | setTag (key : String) (value : Value)
  | logKv (key_values : List (String × Value)) (timestamp : Option Nat) (now : Nat)
  | finishOp (finish_time : Option Nat) (now : Nat)
  | setBaggage (key : String) (value : Option String) (now : Nat)
  | setOpName (name : String)

/-- Execute one operation. -/
def step (s : SpanState) : Op → Except PyErr SpanState
  | .setTag key value => set_tag s key value
  | .logKv kvs ts now => .ok (log_kv s kvs ts now)
  | .finishOp t now => .ok (finish s t now)
  | .setBaggage k v now => .ok (set_baggage_item s k v now)
  | .setOpName n => .ok (set_operation_name s n)

/-- Execute a call sequence; an uncaught exception stops execution and the
state reached so far is returned alongside it. -/
def run (s : SpanState) : List Op → SpanState × Option PyErr
  | [] => (s, Option.none)
  | op :: ops =>
    match step s op with
    | .ok s' => run s' ops
    | .error e => (s, some e)

/-- The operations C6 ranges over: `set_tag` with a non-reserved key and
`log_kv`. -/
def nonReservedMutator : Op → Prop
  | .setTag key _ => key ≠ SAMPLING_PRIORITY
  | .logKv _ _ _ => True
  | _ => False

/-- A concrete test context with the given flags. -/
def testCtx (flags : Nat) : SpanContext :=
  { trace_id := 7, span_id := 8, parent_id := 0, flags := flags, baggage := [] }

/-- A concrete test span with the given flags and a constant
`is_debug_allowed` policy. -/
def testSpan (flags : Nat) (allowDebug : Bool) : SpanState :=
  { context := testCtx flags
  , contextGen := 0
  , operation_name := "op"
  , start_time := 5
  , end_time := Option.none
  , finished := false
  , tags := []
  , logs := []
  , debugAllowed := fun _ => allowDebug
  , maxTagValueLength := 100
  , maxTracebackLength := 50
  , reports := 0
  , warnings := 0 }

/-! ## Helper lemmas -/

instance {ε α : Type} [DecidableEq ε] [DecidableEq α] : DecidableEq (Except ε α) := fun a b =>
  match a, b with
  | .ok a, .ok b =>
    if h : a = b then isTrue (by rw [h]) else isFalse (fun he => by cases he; exact h rfl)
  | .ok _, .error _ => isFalse (fun h => by cases h)
  | .error _, .ok _ => isFalse (fun h => by cases h)
  | .error a, .error b =>
    if h : a = b then isTrue (by rw [h]) else isFalse (fun he => by cases he; exact h rfl)

theorem and_three_eq_mod (f : Nat) : f &&& 3 = f % 4 := by
  have h := Nat.and_pow_two_sub_one_eq_mod f 2
  norm_num at h
  exact h

theorem and_two_eq (f : Nat) : f &&& 2 = f % 4 - f % 2 := by
  have h := Nat.and_two_pow f 1
  rw [Nat.testBit_to_div_mod] at h
  norm_num at h
  rcases Nat.mod_two_eq_zero_or_one (f / 2) with h2 | h2 <;>
    rw [h2] at h <;> simp at h <;> omega

theorem clearSampledDebug_and_one (f : Nat) : clearSampledDebug f &&& 1 = 0 := by
  have h3 : SAMPLED_FLAG ||| DEBUG_FLAG = 3 := by decide
  unfold clearSampledDebug
  rw [h3, Nat.and_one_is_mod, and_three_eq_mod]
  omega

theorem clearSampledDebug_and_two (f : Nat) : clearSampledDebug f &&& 2 = 0 := by
  have h3 : SAMPLED_FLAG ||| DEBUG_FLAG = 3 := by decide
  unfold clearSampledDebug
  rw [h3, and_two_eq, and_three_eq_mod]
  omega

theorem setSampledDebug_and_one (f : Nat) : setSampledDebug f &&& 1 = 1 := by
  have h3 : SAMPLED_FLAG ||| DEBUG_FLAG = 3 := by decide
  unfold setSampledDebug
  rw [h3, Nat.and_distrib_right, Nat.and_one_is_mod, Nat.and_one_is_mod]
  rcases Nat.mod_two_eq_zero_or_one f with h | h <;> rw [h] <;> decide

theorem setSampledDebug_and_two (f : Nat) : setSampledDebug f &&& 2 = 2 := by
  have h3 : SAMPLED_FLAG ||| DEBUG_FLAG = 3 := by decide
  unfold setSampledDebug
  rw [h3, Nat.and_distrib_right, and_two_eq, and_two_eq]
  have h : f % 4 - f % 2 = 0 ∨ f % 4 - f % 2 = 2 := by omega
  rcases h with h | h <;> rw [h] <;> decide

theorem pyTruthy_of_pyInt_ok_ne_zero {v : Value} {n : Int}
    (h : pyInt v = .ok n) (hn : n ≠ 0) : pyTruthy v = true := by
  cases v with
  | int m =>
    simp only [pyInt, Except.ok.injEq] at h
    subst h
    simpa [pyTruthy] using hn
  | bool b =>
    cases b with
    | true => rfl
    | false =>
      simp [pyInt] at h
      omega
  | str s =>
    by_cases hs : s = ""
    · subst hs
      rw [show pyInt (Value.str "") = .error .valueError from rfl] at h
      cases h
    · simpa [pyTruthy] using hs
  | none => cases h
  | list len => cases h

theorem clearSampledDebug_mod_two (f : Nat) : clearSampledDebug f % 2 = 0 := by
  have h := clearSampledDebug_and_one f
  rwa [Nat.and_one_is_mod] at h

theorem setSampledDebug_mod_two (f : Nat) : setSampledDebug f % 2 = 1 := by
  have h := setSampledDebug_and_one f
  rwa [Nat.and_one_is_mod] at h

theorem is_sampled_of_flags {s s' : SpanState}
    (h : s'.context.flags = s.context.flags) : is_sampled s' = is_sampled s := by
  simp [is_sampled, h]

/-- The three outcomes of `_set_sampling_priority` that return normally:
unchanged state, flags cleared in place, or flags elevated in place (and only
then is the verdict "elevated"). -/
theorem ssp_cases {s : SpanState} {v : Value} {r : SpanState × Bool}
    (h : _set_sampling_priority s v = .ok r) :
    r = (s, false) ∨
    r = ({ s with context := { s.context with flags := clearSampledDebug s.context.flags } }, false) ∨
    r = ({ s with context := { s.context with flags := setSampledDebug s.context.flags } }, true) := by
  unfold _set_sampling_priority at h
  split at h
  · exact Or.inl (Except.ok.inj h).symm
  · split at h
    · exact Or.inl (Except.ok.inj h).symm
    · cases h
    · split at h
      · exact Or.inr (Or.inl (Except.ok.inj h).symm)
      · split at h
        · exact Or.inr (Or.inr (Except.ok.inj h).symm)
        · exact Or.inl (Except.ok.inj h).symm

/-- `_set_sampling_priority` touches nothing but the flags of the installed
context: every other span field, the context identity (`contextGen`), and
the context's ids and baggage are preserved. -/
theorem ssp_frame {s : SpanState} {v : Value} {r : SpanState × Bool}
    (h : _set_sampling_priority s v = .ok r) :
    r.1.finished = s.finished ∧ r.1.end_time = s.end_time ∧ r.1.reports = s.reports ∧
    r.1.warnings = s.warnings ∧ r.1.tags = s.tags ∧ r.1.logs = s.logs ∧
    r.1.contextGen = s.contextGen ∧ r.1.operation_name = s.operation_name ∧
    r.1.start_time = s.start_time ∧ r.1.debugAllowed = s.debugAllowed ∧
    r.1.maxTagValueLength = s.maxTagValueLength ∧ r.1.maxTracebackLength = s.maxTracebackLength ∧
    r.1.context.trace_id = s.context.trace_id ∧ r.1.context.span_id = s.context.span_id ∧
    r.1.context.parent_id = s.context.parent_id ∧ r.1.context.baggage = s.context.baggage := by
  rcases ssp_cases h with he | he | he <;> subst he <;>
    exact ⟨rfl, rfl, rfl, rfl, rfl, rfl, rfl, rfl, rfl, rfl, rfl, rfl, rfl, rfl, rfl, rfl⟩

/-- When the elevation verdict is `true`, the span has just been made
sampled. -/
theorem ssp_elevated_sampled {s s' : SpanState} {v : Value}
    (h : _set_sampling_priority s v = .ok (s', true)) : is_sampled s' = true := by
  rcases ssp_cases h with he | he | he
  · cases he
  · cases he
  · have h1 : s' = { s with context := { s.context with flags := setSampledDebug s.context.flags } } :=
      congrArg Prod.fst he
    subst h1
    simp [is_sampled, SAMPLED_FLAG, setSampledDebug_mod_two]

/-- `set_tag` with the reserved key, elevation verdict `false`: the state
returned by the elevation algorithm is returned as-is (`return self`). -/
theorem set_tag_reserved_of_ssp_false {s s₀ : SpanState} {v : Value}
    (h : _set_sampling_priority s v = .ok (s₀, false)) :
    set_tag s SAMPLING_PRIORITY v = .ok s₀ := by
  unfold set_tag
  rw [if_pos rfl, h]
  rfl

/-- `set_tag` with the reserved key, elevation verdict `true`: control falls
through to normal tag storage, and the span — just made sampled — appends
the priority tag. -/
theorem set_tag_reserved_of_ssp_true {s s₀ : SpanState} {v : Value}
    (h : _set_sampling_priority s v = .ok (s₀, true)) :
    set_tag s SAMPLING_PRIORITY v =
      .ok { s₀ with tags := s₀.tags ++
              [make_tag SAMPLING_PRIORITY v s₀.maxTagValueLength s₀.maxTracebackLength] } := by
  have hs := ssp_elevated_sampled h
  unfold set_tag
  rw [if_pos rfl, h]
  simp [hs]

/-- `set_tag` with the reserved key propagates an uncaught exception. -/
theorem set_tag_reserved_of_ssp_error {s : SpanState} {v : Value} {e : PyErr}
    (h : _set_sampling_priority s v = .error e) :
    set_tag s SAMPLING_PRIORITY v = .error e := by
  unfold set_tag
  rw [if_pos rfl, h]

/-- `set_tag` with a non-reserved key: append when sampled, drop when not. -/
theorem set_tag_nonreserved {key : String} (hk : key ≠ SAMPLING_PRIORITY)
    (s : SpanState) (v : Value) :
    set_tag s key v =
      .ok (if is_sampled s then
             { s with tags := s.tags ++ [make_tag key v s.maxTagValueLength s.maxTracebackLength] }
           else s) := by
  unfold set_tag
  rw [if_neg hk]

/-- `set_tag` preserves every field other than the tag list and the context
flags. -/
theorem set_tag_ok_frame {s : SpanState} {key : String} {v : Value} {s' : SpanState}
    (h : set_tag s key v = .ok s') :
    s'.finished = s.finished ∧ s'.end_time = s.end_time ∧ s'.reports = s.reports ∧
    s'.warnings = s.warnings ∧ s'.logs = s.logs ∧ s'.contextGen = s.contextGen ∧
    s'.operation_name = s.operation_name ∧ s'.start_time = s.start_time ∧
    s'.debugAllowed = s.debugAllowed ∧
    s'.maxTagValueLength = s.maxTagValueLength ∧ s'.maxTracebackLength = s.maxTracebackLength ∧
    s'.context.trace_id = s.context.trace_id ∧ s'.context.span_id = s.context.span_id ∧
    s'.context.parent_id = s.context.parent_id ∧ s'.context.baggage = s.context.baggage := by
  by_cases hk : key = SAMPLING_PRIORITY
  · subst hk
    cases hssp : _set_sampling_priority s v with
    | error e =>
      rw [set_tag_reserved_of_ssp_error hssp] at h
      cases h
    | ok r =>
      obtain ⟨s₀, elev⟩ := r
      have hf := ssp_frame hssp
      cases elev with
      | false =>
        rw [set_tag_reserved_of_ssp_false hssp] at h
        injection h with h2
        subst h2
        obtain ⟨h1, h2, h3, h4, _, h6, h7, h8, h9, h10, h11, h12, h13, h14, h15, h16⟩ := hf
        exact ⟨h1, h2, h3, h4, h6, h7, h8, h9, h10, h11, h12, h13, h14, h15, h16⟩
      | true =>
        rw [set_tag_reserved_of_ssp_true hssp] at h
        injection h with h2
        subst h2
        obtain ⟨h1, h2, h3, h4, _, h6, h7, h8, h9, h10, h11, h12, h13, h14, h15, h16⟩ := hf
        exact ⟨h1, h2, h3, h4, h6, h7, h8, h9, h10, h11, h12, h13, h14, h15, h16⟩
  · rw [set_tag_nonreserved hk] at h
    injection h with h2
    subst h2
    by_cases hs : is_sampled s = true <;> simp [hs]

/-- `log_kv` changes nothing but the log list. -/
theorem log_kv_frame (s : SpanState) (kvs : List (String × Value))
    (ts : Option Nat) (now : Nat) :
    (log_kv s kvs ts now).context = s.context ∧
    (log_kv s kvs ts now).contextGen = s.contextGen ∧
    (log_kv s kvs ts now).tags = s.tags ∧
    (log_kv s kvs ts now).finished = s.finished ∧
    (log_kv s kvs ts now).end_time = s.end_time ∧
    (log_kv s kvs ts now).reports = s.reports ∧
    (log_kv s kvs ts now).warnings = s.warnings ∧
    (log_kv s kvs ts now).operation_name = s.operation_name ∧
    (log_kv s kvs ts now).start_time = s.start_time ∧
    (log_kv s kvs ts now).debugAllowed = s.debugAllowed ∧
    (log_kv s kvs ts now).maxTagValueLength = s.maxTagValueLength ∧
    (log_kv s kvs ts now).maxTracebackLength = s.maxTracebackLength := by
  unfold log_kv
  split <;> simp

/-- `set_baggage_item` equals: swap in the freshly built context (bumping the
installed-object identity), then `log_kv` the audit fields — `log_kv` itself
being a no-op on an unsampled span. -/
theorem set_baggage_item_via_log_kv (s : SpanState) (key : String)
    (value : Option String) (now : Nat) :
    set_baggage_item s key value now =
      log_kv { s with context := with_baggage_item s.context key value,
                      contextGen := s.contextGen + 1 }
        ([("event", Value.str "baggage"), ("key", Value.str key),
          ("value", match value with
            | some v => Value.str v
            | Option.none => Value.none)] ++
         (if pyTruthyOptStr (get_baggage_item s key) then [("override", Value.str "true")]
          else []))
        Option.none now := by
  cases value with
  | some v =>
    by_cases hs : is_sampled { s with context := with_baggage_item s.context key (some v), contextGen := s.contextGen + 1 } = true <;>
      simp [set_baggage_item, log_kv, hs]
  | none =>
    by_cases hs : is_sampled { s with context := with_baggage_item s.context key Option.none, contextGen := s.contextGen + 1 } = true <;>
      simp [set_baggage_item, log_kv, hs]

/-- The reporting invariant: a span has been reported exactly once iff it is
finished. -/
def reportInv (s : SpanState) : Prop :=
  s.reports = if s.finished then 1 else 0

theorem step_reportInv {s : SpanState} {op : Op} {s' : SpanState}
    (h : step s op = .ok s') (hi : reportInv s) : reportInv s' := by
  cases op with
  | setTag k v =>
    simp only [step] at h
    obtain ⟨h1, -, h3, -⟩ := set_tag_ok_frame h
    unfold reportInv at *
    rw [h3, h1]
    exact hi
  | logKv kvs ts now =>
    simp only [step] at h
    injection h with h2
    subst h2
    obtain ⟨-, -, -, hfin, -, hrep, -⟩ := log_kv_frame s kvs ts now
    unfold reportInv at *
    rw [hrep, hfin]
    exact hi
  | finishOp t now =>
    simp only [step] at h
    injection h with h2
    subst h2
    unfold finish
    by_cases hs : is_sampled s = true
    · rw [if_neg (by simp [hs])]
      by_cases hf : s.finished = true
      · rw [if_pos hf]
        unfold reportInv at *
        simpa using hi
      · rw [if_neg hf]
        unfold reportInv at *
        simp only [Bool.not_eq_true] at hf
        rw [hf] at hi
        simp [hi]
    · rw [if_pos (by simp [hs])]
      exact hi
  | setBaggage k v now =>
    simp only [step] at h
    injection h with h2
    subst h2
    rw [set_baggage_item_via_log_kv]
    obtain ⟨-, -, -, hfin, -, hrep, -⟩ := log_kv_frame
      { s with context := with_baggage_item s.context k v, contextGen := s.contextGen + 1 } _ _ now
    unfold reportInv at *
    rw [hrep, hfin]
    exact hi
  | setOpName n =>
    simp only [step] at h
    injection h with h2
    subst h2
    exact hi

theorem run_reportInv (ops : List Op) : ∀ s : SpanState, reportInv s → reportInv (run s ops).1 := by
  induction ops with
  | nil => intro s hi; exact hi
  | cons op ops ih =>
    intro s hi
    simp only [run]
    cases hstep : step s op with
    | ok s' => exact ih s' (step_reportInv hstep hi)
    | error e => exact hi

theorem step_unsampled_nonreserved {s : SpanState} {op : Op}
    (hop : nonReservedMutator op) (hs : is_sampled s = false) : step s op = .ok s := by
  cases op with
  | setTag k v =>
    have hk : k ≠ SAMPLING_PRIORITY := hop
    simp only [step]
    rw [set_tag_nonreserved hk, if_neg (by simp [hs])]
  | logKv kvs ts now =>
    simp only [step]
    unfold log_kv
    rw [if_neg (by simp [hs])]
  | finishOp t now => exact hop.elim
  | setBaggage k v now => exact hop.elim
  | setOpName n => exact hop.elim

theorem run_unsampled_nonreserved (ops : List Op) :
    ∀ s : SpanState, (∀ op ∈ ops, nonReservedMutator op) → is_sampled s = false →
      run s ops = (s, Option.none) := by
  induction ops with
  | nil => intro s _ _; rfl
  | cons op ops ih =>
    intro s hops hs
    have h1 := step_unsampled_nonreserved (hops op (by simp)) hs
    simp only [run]
    rw [h1]
    exact ih s (fun o ho => hops o (by simp [ho])) hs

theorem bagGet_bagSet (b : List (String × String)) (k v : String) :
    bagGet (bagSet b k v) k = some v := by
  induction b with
  | nil => simp [bagSet, bagGet]
  | cons kv rest ih =>
    obtain ⟨k', v'⟩ := kv
    by_cases hk : k' = k
    · simp [bagSet, bagGet, hk]
    · simp [bagSet, bagGet, hk, ih]

/-- On a sampled span, `set_baggage_item` swaps in the context with the
binding updated, bumps the installed-object identity and appends exactly one
audit log record. -/
theorem set_baggage_item_sampled (s : SpanState) (key v : String) (now : Nat)
    (hs : is_sampled s = true) :
    set_baggage_item s key (some v) now =
      { s with context := { s.context with baggage := bagSet s.context.baggage key v },
               contextGen := s.contextGen + 1,
               logs := s.logs ++ [make_log now
                 ([("event", Value.str "baggage"), ("key", Value.str key),
                   ("value", Value.str v)] ++
                  (if pyTruthyOptStr (get_baggage_item s key) then [("override", Value.str "true")]
                   else []))
                 s.maxTagValueLength s.maxTracebackLength] } := by
  rw [set_baggage_item_via_log_kv]
  have hs1 : is_sampled { s with context := with_baggage_item s.context key (some v), contextGen := s.contextGen + 1 } = true := hs
  unfold log_kv
  rw [if_pos hs1]
  rfl

/-! ## Claim theorems -/

/-- C2: starting from a freshly constructed span (not finished, never
reported), any sequence of operations invokes `report_span` at most once;
and on an already-finished span, `finish` performs no reporting action and
changes nothing but the warning counter (one warning when the sampled fast
path is passed, none otherwise), returning without error. -/
theorem C2_report_at_most_once :
    (∀ (s : SpanState) (ops : List Op), s.finished = false → s.reports = 0 →
       (run s ops).1.reports ≤ 1) ∧
    (∀ (s : SpanState) (ft : Option Nat) (now : Nat), s.finished = true →
       finish s ft now =
         { s with warnings := s.warnings + (if is_sampled s then 1 else 0) }) := by
  constructor
  · intro s ops h1 h2
    have hi : reportInv s := by simp [reportInv, h1, h2]
    have hr := run_reportInv ops s hi
    unfold reportInv at hr
    rw [hr]
    split <;> omega
  · intro s ft now hf
    unfold finish
    by_cases hs : is_sampled s = true
    · rw [if_neg (by simp [hs]), if_pos hf]
      simp [hs]
    · rw [if_pos (by simp [hs])]
      simp only [Bool.not_eq_true] at hs
      simp [hs]

theorem C2_witness :
    ((testSpan 1 true).finished = false ∧ (testSpan 1 true).reports = 0 ∧
     (run (testSpan 1 true) [Op.finishOp Option.none 10, Op.finishOp Option.none 20]).1.reports ≤ 1) ∧
    ((finish (testSpan 1 true) Option.none 10).finished = true ∧
     finish (finish (testSpan 1 true) Option.none 10) Option.none 20 =
       { finish (testSpan 1 true) Option.none 10 with
           warnings := (finish (testSpan 1 true) Option.none 10).warnings +
             (if is_sampled (finish (testSpan 1 true) Option.none 10) then 1 else 0) }) :=
  ⟨⟨rfl, rfl, C2_report_at_most_once.1 (testSpan 1 true)
      [Op.finishOp Option.none 10, Op.finishOp Option.none 20] rfl rfl⟩,
   ⟨rfl, C2_report_at_most_once.2 (finish (testSpan 1 true) Option.none 10)
      Option.none 20 rfl⟩⟩

/-- C6: for every span whose SAMPLED flag is not set, any sequence of
`set_tag` calls with non-reserved keys and `log_kv` calls leaves the span's
tag and log sequences empty (in fact leaves the whole state unchanged):
nothing is stored while unsampled. -/
theorem C6_unsampled_nothing_stored (s : SpanState) (ops : List Op)
    (hops : ∀ op ∈ ops, nonReservedMutator op)
    (hs : is_sampled s = false) (ht : s.tags = []) (hl : s.logs = []) :
    (run s ops).1.tags = [] ∧ (run s ops).1.logs = [] := by
  rw [run_unsampled_nonreserved ops s hops hs]
  exact ⟨ht, hl⟩

theorem C6_witness :
    (∀ op ∈ [Op.setTag "a" (Value.int 1), Op.logKv [("e", Value.str "x")] Option.none 5],
       nonReservedMutator op) ∧
    is_sampled (testSpan 0 true) = false ∧
    (testSpan 0 true).tags = [] ∧ (testSpan 0 true).logs = [] ∧
    ((run (testSpan 0 true)
        [Op.setTag "a" (Value.int 1), Op.logKv [("e", Value.str "x")] Option.none 5]).1.tags = [] ∧
     (run (testSpan 0 true)
        [Op.setTag "a" (Value.int 1), Op.logKv [("e", Value.str "x")] Option.none 5]).1.logs = []) :=
  ⟨by simp [nonReservedMutator, SAMPLING_PRIORITY], rfl, rfl, rfl,
   C6_unsampled_nothing_stored (testSpan 0 true)
     [Op.setTag "a" (Value.int 1), Op.logKv [("e", Value.str "x")] Option.none 5]
     (by simp [nonReservedMutator, SAMPLING_PRIORITY]) rfl rfl rfl⟩

/-- C7: for every span whose SAMPLED flag is not set, `finish` (with or
without an explicit end time) returns immediately with no effect: the state
— including `reports` (no `report_span` call), `finished`, `end_time`,
`tags`, `logs` and `operation_name` — is exactly unchanged. -/
theorem C7_finish_unsampled_noop (s : SpanState) (finish_time : Option Nat) (now : Nat)
    (h : is_sampled s = false) : finish s finish_time now = s := by
  simp [finish, h]

theorem C7_witness :
    is_sampled (testSpan 0 true) = false ∧
    finish (testSpan 0 true) (some 42) 99 = testSpan 0 true :=
  ⟨rfl, C7_finish_unsampled_noop (testSpan 0 true) (some 42) 99 rfl⟩

/-- C10: for every span whose DEBUG flag is set, `set_tag` with the reserved
sampling-priority key and a value parsing to a non-zero integer returns the
state entirely unchanged (flags included) and raises no error: the debug
check refuses before anything is modified. -/
theorem C10_debug_priority_nonzero_noop (s : SpanState) (v : Value) (n : Int)
    (hd : is_debug s = true) (hv : pyInt v = .ok n) (hn : n ≠ 0) :
    set_tag s SAMPLING_PRIORITY v = .ok s := by
  have ht := pyTruthy_of_pyInt_ok_ne_zero hv hn
  have hssp : _set_sampling_priority s v = .ok (s, false) := by
    unfold _set_sampling_priority
    rw [if_pos (by simp [hd, ht])]
  exact set_tag_reserved_of_ssp_false hssp

theorem C10_witness :
    is_debug (testSpan 3 true) = true ∧
    pyInt (Value.int 1) = .ok 1 ∧ (1 : Int) ≠ 0 ∧
    set_tag (testSpan 3 true) SAMPLING_PRIORITY (Value.int 1) = .ok (testSpan 3 true) :=
  ⟨rfl, rfl, by decide,
   C10_debug_priority_nonzero_noop (testSpan 3 true) (Value.int 1) 1 rfl rfl (by decide)⟩

/-- C3 counterexample: on a sampled, non-debug span, `set_tag` with the
reserved sampling-priority key and the value `None` (which does not parse as
an integer) raises an uncaught `TypeError` — contradicting "calling SetTag
... raises no error ... no operation in this core throws for malformed
input". -/
theorem C3_counterexample :
    set_tag (testSpan 1 true) SAMPLING_PRIORITY Value.none = .error .typeError := by
  rfl

/-- C3 amended: a sampling-priority value whose integer parse fails with
`ValueError` (e.g. a non-numeric string) raises no error, leaves the whole
state (flags included) unchanged and stores no tag; but a value whose parse
fails with `TypeError` (`None`, a list) propagates that uncaught `TypeError`
whenever the debug-refusal check does not fire first. -/
theorem C3_amended_malformed_priority :
    (∀ (s : SpanState) (v : Value), pyInt v = .error .valueError →
       set_tag s SAMPLING_PRIORITY v = .ok s) ∧
    (∀ (s : SpanState) (v : Value), pyInt v = .error .typeError →
       (is_debug s && pyTruthy v) = false →
       set_tag s SAMPLING_PRIORITY v = .error .typeError) := by
  constructor
  · intro s v hv
    apply set_tag_reserved_of_ssp_false
    unfold _set_sampling_priority
    by_cases hd : (is_debug s && pyTruthy v) = true
    · rw [if_pos hd]
    · rw [if_neg hd, hv]
  · intro s v hv hd
    apply set_tag_reserved_of_ssp_error
    unfold _set_sampling_priority
    rw [if_neg (by simp [hd]), hv]

/-- C4 counterexample: on a span whose DEBUG flag is set, the string `"0"`
parses to zero yet is truthy, so the debug-refusal check fires first and
`set_tag` returns with the flags *unchanged* — SAMPLED and DEBUG are not
cleared, contradicting "for every span (whether or not its DEBUG flag is
set) ... clears both the SAMPLED and DEBUG bits". -/
theorem C4_counterexample :
    pyInt (Value.str "0") = .ok 0 ∧
    is_debug (testSpan 3 true) = true ∧
    set_tag (testSpan 3 true) SAMPLING_PRIORITY (Value.str "0") = .ok (testSpan 3 true) ∧
    is_sampled (testSpan 3 true) = true :=
  ⟨rfl, rfl, rfl, rfl⟩

/-- C4 amended: a sampling-priority value parsing to zero clears both the
SAMPLED and DEBUG bits (so `is_sampled` becomes false) and persists no tag —
*provided* the debug-refusal check does not fire, i.e. unless the span is in
debug mode and the value is truthy (as the truthy string `"0"` is); the
refusal is keyed on truthiness, not on the parsed integer. -/
theorem C4_amended_priority_zero_clears (s : SpanState) (v : Value)
    (hv : pyInt v = .ok 0) (hnd : (is_debug s && pyTruthy v) = false) :
    ∃ s', set_tag s SAMPLING_PRIORITY v = .ok s' ∧
      s'.context.flags = clearSampledDebug s.context.flags ∧
      is_sampled s' = false ∧ is_debug s' = false ∧ s'.tags = s.tags := by
  have hssp : _set_sampling_priority s v =
      .ok ({ s with context := { s.context with flags := clearSampledDebug s.context.flags } },
           false) := by
    unfold _set_sampling_priority
    rw [if_neg (by simp [hnd]), hv]
    rfl
  refine ⟨_, set_tag_reserved_of_ssp_false hssp, rfl, ?_, ?_, rfl⟩
  · simp [is_sampled, SAMPLED_FLAG, clearSampledDebug_mod_two]
  · simp [is_debug, DEBUG_FLAG, clearSampledDebug_and_two]

theorem C4_amended_witness :
    pyInt (Value.str "0") = .ok 0 ∧
    (is_debug (testSpan 1 true) && pyTruthy (Value.str "0")) = false ∧
    ∃ s', set_tag (testSpan 1 true) SAMPLING_PRIORITY (Value.str "0") = .ok s' ∧
      s'.context.flags = clearSampledDebug (testSpan 1 true).context.flags ∧
      is_sampled s' = false ∧ is_debug s' = false ∧ s'.tags = (testSpan 1 true).tags :=
  ⟨rfl, rfl, C4_amended_priority_zero_clears (testSpan 1 true) (Value.str "0") rfl rfl⟩

/-- C1 counterexample: on a sampled, non-debug span whose tracer permits
debug elevation, `set_tag` with the reserved sampling-priority key and the
value `1` reports "elevated" and then *does* append a literal tag with the
reserved key — contradicting "never appends a record to the span's tag
sequence ... regardless of whether the elevation algorithm reports elevated
or not". -/
theorem C1_counterexample :
    (set_tag (testSpan 1 true) SAMPLING_PRIORITY (Value.int 1)).map SpanState.tags =
      .ok [{ key := SAMPLING_PRIORITY, value := TagValue.vLong 1 }] :=
  rfl

/-- C1 amended: `set_tag` with the reserved key appends no tag whenever the
elevation algorithm reports "not elevated" (it returns the elevation
algorithm's state as-is); but when the algorithm reports "elevated," the
span — which elevation has just made sampled — appends the priority tag as a
literal tag. -/
theorem C1_amended_priority_tag_materialization :
    (∀ (s s₀ : SpanState) (v : Value),
       _set_sampling_priority s v = .ok (s₀, false) →
       set_tag s SAMPLING_PRIORITY v = .ok s₀ ∧ s₀.tags = s.tags) ∧
    (∀ (s s₀ : SpanState) (v : Value),
       _set_sampling_priority s v = .ok (s₀, true) →
       is_sampled s₀ = true ∧
       set_tag s SAMPLING_PRIORITY v =
         .ok { s₀ with tags := s₀.tags ++
                 [make_tag SAMPLING_PRIORITY v s₀.maxTagValueLength s₀.maxTracebackLength] }) := by
  constructor
  · intro s s₀ v h
    exact ⟨set_tag_reserved_of_ssp_false h, (ssp_frame h).2.2.2.2.1⟩
  · intro s s₀ v h
    exact ⟨ssp_elevated_sampled h, set_tag_reserved_of_ssp_true h⟩

theorem C1_amended_witness :
    (_set_sampling_priority (testSpan 1 true) (Value.str "abc") = .ok (testSpan 1 true, false) ∧
     set_tag (testSpan 1 true) SAMPLING_PRIORITY (Value.str "abc") = .ok (testSpan 1 true) ∧
     (testSpan 1 true).tags = (testSpan 1 true).tags) ∧
    (_set_sampling_priority (testSpan 1 true) (Value.int 1) = .ok (testSpan 3 true, true) ∧
     is_sampled (testSpan 3 true) = true ∧
     set_tag (testSpan 1 true) SAMPLING_PRIORITY (Value.int 1) =
       .ok { testSpan 3 true with tags := (testSpan 3 true).tags ++
               [make_tag SAMPLING_PRIORITY (Value.int 1)
                 (testSpan 3 true).maxTagValueLength (testSpan 3 true).maxTracebackLength] }) :=
  ⟨⟨rfl, (C1_amended_priority_tag_materialization.1 (testSpan 1 true) (testSpan 1 true)
       (Value.str "abc") rfl).1,
    (C1_amended_priority_tag_materialization.1 (testSpan 1 true) (testSpan 1 true)
       (Value.str "abc") rfl).2⟩,
   ⟨rfl, (C1_amended_priority_tag_materialization.2 (testSpan 1 true) (testSpan 3 true)
       (Value.int 1) rfl).1,
    (C1_amended_priority_tag_materialization.2 (testSpan 1 true) (testSpan 3 true)
       (Value.int 1) rfl).2⟩⟩

/-- C5 counterexample: the sampling-priority value `0` changes the flags of
the span's context from `1` to `0` while the installed context object stays
the same one (`contextGen` unchanged at `0`): an in-place mutation of a
SpanContext already attached to the span, contradicting "the fields ... of
any SpanContext already attached to the span are never modified". -/
theorem C5_counterexample :
    (set_tag (testSpan 1 true) SAMPLING_PRIORITY (Value.int 0)).map
        (fun s => (s.contextGen, s.context.flags)) = .ok (0, 0) ∧
    (testSpan 1 true).contextGen = 0 ∧ (testSpan 1 true).context.flags = 1 :=
  ⟨rfl, rfl, rfl⟩

/-- C5 amended: every baggage change installs a *new* SpanContext value
(fresh object identity, contents given by `with_baggage_item`); and the
sampling-priority algorithm never replaces the context object nor touches
its trace id, span id, parent id, or baggage — but it does mutate the
attached context's `flags` field in place. -/
theorem C5_amended_context_immutability :
    (∀ (s : SpanState) (k : String) (v : Option String) (now : Nat),
       (set_baggage_item s k v now).contextGen = s.contextGen + 1 ∧
       (set_baggage_item s k v now).context = with_baggage_item s.context k v) ∧
    (∀ (s : SpanState) (v : Value) (r : SpanState × Bool),
       _set_sampling_priority s v = .ok r →
       r.1.contextGen = s.contextGen ∧
       r.1.context.trace_id = s.context.trace_id ∧
       r.1.context.span_id = s.context.span_id ∧
       r.1.context.parent_id = s.context.parent_id ∧
       r.1.context.baggage = s.context.baggage) := by
  constructor
  · intro s k v now
    rw [set_baggage_item_via_log_kv]
    obtain ⟨hc, hg, -⟩ := log_kv_frame
      { s with context := with_baggage_item s.context k v, contextGen := s.contextGen + 1 }
      ([("event", Value.str "baggage"), ("key", Value.str k),
        ("value", match v with
          | some v => Value.str v
          | Option.none => Value.none)] ++
       (if pyTruthyOptStr (get_baggage_item s k) then [("override", Value.str "true")]
        else []))
      Option.none now
    exact ⟨hg, hc⟩
  · intro s v r h
    obtain ⟨-, -, -, -, -, -, hg, -, -, -, -, -, h13, h14, h15, h16⟩ := ssp_frame h
    exact ⟨hg, h13, h14, h15, h16⟩

theorem C5_amended_witness :
    _set_sampling_priority (testSpan 1 true) (Value.int 0) = .ok (testSpan 0 true, false) ∧
    ((testSpan 0 true, false) : SpanState × Bool).1.contextGen = (testSpan 1 true).contextGen ∧
    (testSpan 0 true).context.trace_id = (testSpan 1 true).context.trace_id ∧
    (testSpan 0 true).context.span_id = (testSpan 1 true).context.span_id ∧
    (testSpan 0 true).context.parent_id = (testSpan 1 true).context.parent_id ∧
    (testSpan 0 true).context.baggage = (testSpan 1 true).context.baggage :=
  ⟨rfl, C5_amended_context_immutability.2 (testSpan 1 true) (Value.int 0)
     (testSpan 0 true, false) rfl⟩

/-- C8: on a sampled span with no previous `"k"` baggage,
`set_baggage_item "k" "v1"` then `set_baggage_item "k" "v2"` yields
`get_baggage_item "k" = "v2"`; each call installs a distinct new context
(fresh object identity each time, and the context values differ step to
step); and each call appends one baggage-audit log record with fields
`event="baggage"`, `key`, `value` — the second additionally carrying the
`override="true"` marker because a previous value existed. -/
theorem C8_baggage_override (s s1 s2 : SpanState) (now1 now2 : Nat)
    (hs : is_sampled s = true) (h0 : get_baggage_item s "k" = Option.none)
    (e1 : s1 = set_baggage_item s "k" (some "v1") now1)
    (e2 : s2 = set_baggage_item s1 "k" (some "v2") now2) :
    get_baggage_item s2 "k" = some "v2" ∧
    s1.contextGen = s.contextGen + 1 ∧ s2.contextGen = s.contextGen + 2 ∧
    s1.context ≠ s.context ∧ s2.context ≠ s1.context ∧
    s1.logs = s.logs ++ [make_log now1
      [("event", Value.str "baggage"), ("key", Value.str "k"), ("value", Value.str "v1")]
      s.maxTagValueLength s.maxTracebackLength] ∧
    s2.logs = s1.logs ++ [make_log now2
      [("event", Value.str "baggage"), ("key", Value.str "k"), ("value", Value.str "v2"),
       ("override", Value.str "true")]
      s.maxTagValueLength s.maxTracebackLength] := by
  have h1 : s1 = { s with context := { s.context with baggage := bagSet s.context.baggage "k" "v1" }, contextGen := s.contextGen + 1, logs := s.logs ++ [make_log now1 [("event", Value.str "baggage"), ("key", Value.str "k"), ("value", Value.str "v1")] s.maxTagValueLength s.maxTracebackLength] } := by
    rw [e1, set_baggage_item_sampled s "k" "v1" now1 hs, h0]
    simp [pyTruthyOptStr]
  subst h1
  have hsR : is_sampled { s with context := { s.context with baggage := bagSet s.context.baggage "k" "v1" }, contextGen := s.contextGen + 1, logs := s.logs ++ [make_log now1 [("event", Value.str "baggage"), ("key", Value.str "k"), ("value", Value.str "v1")] s.maxTagValueLength s.maxTracebackLength] } = true := hs
  have hgR : get_baggage_item { s with context := { s.context with baggage := bagSet s.context.baggage "k" "v1" }, contextGen := s.contextGen + 1, logs := s.logs ++ [make_log now1 [("event", Value.str "baggage"), ("key", Value.str "k"), ("value", Value.str "v1")] s.maxTagValueLength s.maxTracebackLength] } "k" = some "v1" :=
    bagGet_bagSet s.context.baggage "k" "v1"
  have h2 : s2 = { s with context := { s.context with baggage := bagSet (bagSet s.context.baggage "k" "v1") "k" "v2" }, contextGen := s.contextGen + 2, logs := (s.logs ++ [make_log now1 [("event", Value.str "baggage"), ("key", Value.str "k"), ("value", Value.str "v1")] s.maxTagValueLength s.maxTracebackLength]) ++ [make_log now2 [("event", Value.str "baggage"), ("key", Value.str "k"), ("value", Value.str "v2"), ("override", Value.str "true")] s.maxTagValueLength s.maxTracebackLength] } := by
    rw [e2, set_baggage_item_sampled _ "k" "v2" now2 hsR, hgR]
    simp [pyTruthyOptStr]
  subst h2
  refine ⟨bagGet_bagSet _ "k" "v2", rfl, rfl, ?_, ?_, rfl, rfl⟩
  · intro heq
    have hb := congrArg (fun c => bagGet c.baggage "k") heq
    simp only [] at hb
    have hcontra : (some "v1" : Option String) = Option.none :=
      (bagGet_bagSet s.context.baggage "k" "v1").symm.trans (hb.trans h0)
    cases hcontra
  · intro heq
    have hb := congrArg (fun c => bagGet c.baggage "k") heq
    have hcontra : (some "v2" : Option String) = some "v1" :=
      (bagGet_bagSet (bagSet s.context.baggage "k" "v1") "k" "v2").symm.trans
        (hb.trans (bagGet_bagSet s.context.baggage "k" "v1"))
    simp at hcontra

theorem C8_witness :
    is_sampled (testSpan 1 true) = true ∧
    get_baggage_item (testSpan 1 true) "k" = Option.none ∧
    (get_baggage_item (set_baggage_item (set_baggage_item (testSpan 1 true) "k" (some "v1") 10)
        "k" (some "v2") 20) "k" = some "v2" ∧
     (set_baggage_item (testSpan 1 true) "k" (some "v1") 10).contextGen =
       (testSpan 1 true).contextGen + 1 ∧
     (set_baggage_item (set_baggage_item (testSpan 1 true) "k" (some "v1") 10)
        "k" (some "v2") 20).contextGen = (testSpan 1 true).contextGen + 2 ∧
     (set_baggage_item (testSpan 1 true) "k" (some "v1") 10).context ≠
       (testSpan 1 true).context ∧
     (set_baggage_item (set_baggage_item (testSpan 1 true) "k" (some "v1") 10)
        "k" (some "v2") 20).context ≠
       (set_baggage_item (testSpan 1 true) "k" (some "v1") 10).context ∧
     (set_baggage_item (testSpan 1 true) "k" (some "v1") 10).logs =
       (testSpan 1 true).logs ++ [make_log 10
         [("event", Value.str "baggage"), ("key", Value.str "k"), ("value", Value.str "v1")]
         (testSpan 1 true).maxTagValueLength (testSpan 1 true).maxTracebackLength] ∧
     (set_baggage_item (set_baggage_item (testSpan 1 true) "k" (some "v1") 10)
        "k" (some "v2") 20).logs =
       (set_baggage_item (testSpan 1 true) "k" (some "v1") 10).logs ++ [make_log 20
         [("event", Value.str "baggage"), ("key", Value.str "k"), ("value", Value.str "v2"),
          ("override", Value.str "true")]
         (testSpan 1 true).maxTagValueLength (testSpan 1 true).maxTracebackLength]) :=
  ⟨rfl, rfl, C8_baggage_override (testSpan 1 true)
     (set_baggage_item (testSpan 1 true) "k" (some "v1") 10)
     (set_baggage_item (set_baggage_item (testSpan 1 true) "k" (some "v1") 10) "k" (some "v2") 20)
     10 20 rfl rfl rfl rfl⟩

/-- C9 counterexample: constructing a span over an *unsampled* context with
seed tags `{"a": 1, "b": "x"}` yields an empty tag sequence, not two
records — the seed tags are installed through `set_tag`, which drops tags on
an unsampled span. -/
theorem C9_counterexample :
    (testCtx 0).flags &&& SAMPLED_FLAG = 0 ∧
    (span_init (testCtx 0) "op" [("a", Value.int 1), ("b", Value.str "x")]
        Option.none 9 (fun _ => true) 100 50).map SpanState.tags = .ok [] :=
  ⟨rfl, rfl⟩

/-- C9 amended: constructing a span over a *sampled* context with seed tags
`{"a": 1, "b": "x"}` yields exactly two Tag records with matching keys and
values, in insertion order; on an unsampled context the seed tags are
dropped and the sequence is empty. -/
theorem C9_amended_seed_tags_roundtrip (ctx : SpanContext) (opname : String)
    (st : Option Nat) (now : Nat) (da : String → Bool) (m1 m2 : Nat)
    (hs : ctx.flags &&& SAMPLED_FLAG = SAMPLED_FLAG) :
    (span_init ctx opname [("a", Value.int 1), ("b", Value.str "x")] st now da m1 m2).map
        SpanState.tags =
      .ok [{ key := "a", value := .vLong 1 }, { key := "b", value := .vStr "x" }] := by
  have ha := set_tag_nonreserved (show ("a" : String) ≠ SAMPLING_PRIORITY by decide)
  have hb := set_tag_nonreserved (show ("b" : String) ≠ SAMPLING_PRIORITY by decide)
  simp [span_init, ha, hb, is_sampled, hs, make_tag, encodeValue, Except.map,
    Bind.bind, Except.bind, Pure.pure, Except.pure]

theorem C9_amended_witness :
    (testCtx 1).flags &&& SAMPLED_FLAG = SAMPLED_FLAG ∧
    (span_init (testCtx 1) "op" [("a", Value.int 1), ("b", Value.str "x")]
        Option.none 9 (fun _ => false) 100 50).map SpanState.tags =
      .ok [{ key := "a", value := .vLong 1 }, { key := "b", value := .vStr "x" }] :=
  ⟨rfl, C9_amended_seed_tags_roundtrip (testCtx 1) "op" Option.none 9 (fun _ => false) 100 50 rfl⟩

theorem C3_amended_witness :
    (pyInt (Value.str "abc") = .error .valueError ∧
     set_tag (testSpan 1 true) SAMPLING_PRIORITY (Value.str "abc") = .ok (testSpan 1 true)) ∧
    (pyInt (Value.list 2) = .error .typeError ∧
     (is_debug (testSpan 1 true) && pyTruthy (Value.list 2)) = false ∧
     set_tag (testSpan 1 true) SAMPLING_PRIORITY (Value.list 2) = .error .typeError) :=
  ⟨⟨rfl, C3_amended_malformed_priority.1 (testSpan 1 true) (Value.str "abc") rfl⟩,
   ⟨rfl, rfl, C3_amended_malformed_priority.2 (testSpan 1 true) (Value.list 2) rfl rfl⟩⟩

end JaegerSpan
